import Mathlib

/-!
Shallow embedding of the ink! contract `the_button` (src/the_button/lib.rs).

Machine integers (`u64` timestamps/durations, `Balance`) are modelled as
`Nat`; the only arithmetic in the contract is comparison and checked
subtraction, whose underflow condition on `u64` coincides with the one on
`Nat`, so no modular reduction is needed.  A Rust `.unwrap()` that can
panic is modelled by an `Option` result, `none` meaning the call aborts.
The host environment (caller, block timestamp, transferred value, contract
balance) is an explicit record passed to each message.
-/

namespace the_button

/-- `u64::checked_sub`: `a.checked_sub b` is `some (a - b)` when `b ≤ a`
and `none` on underflow. -/
def checkedSub (a b : Nat) : Option Nat :=
  if b ≤ a then some (a - b) else none

/-- The host execution environment visible to one message call:
`self.env().caller()`, `self.env().block_timestamp()`,
`self.env().transferred_value()`, `self.env().balance()`. -/
structure Env where
  caller : Nat
  block_timestamp : Nat
  transferred_value : Nat
  balance : Nat
deriving DecidableEq, Repr

/-- The `#[ink(storage)]` struct `TheButton`. -/
structure TheButton where
  last_press_caller : Nat
  last_press_timestamp : Nat
  countdown_duration : Nat
  min_raise_balance : Nat
deriving DecidableEq, Repr

/-- The contract's `Error` enum. -/
inductive Error where
  | CountdownNotPassed
  | InsertCoinToContinue
deriving DecidableEq, Repr

/-- Constructor `TheButton::new`: seeds `last_press_caller` and
`last_press_timestamp` from the environment. -/
def new (env : Env) (countdown_duration min_raise_balance : Nat) : TheButton :=
  { last_press_caller := env.caller
    last_press_timestamp := env.block_timestamp
    countdown_duration := countdown_duration
    min_raise_balance := min_raise_balance }

/-- Constructor `TheButton::default`: `new(86400 * 1000, 10_000_000_000)`. -/
def default (env : Env) : TheButton :=
  new env (86400 * 1000) 10000000000

/-- Message `press`: if the transferred value is below `min_raise_balance`
it returns `Err(InsertCoinToContinue)` without touching `&mut self`;
otherwise it updates `last_press_caller` and `last_press_timestamp` and
returns `Ok(())`.  The pair carries the resulting state of `&mut self`. -/
def press (env : Env) (s : TheButton) : Except Error Unit × TheButton :=
  if env.transferred_value < s.min_raise_balance then
    (Except.error Error.InsertCoinToContinue, s)
  else
    (Except.ok (),
      { s with last_press_caller := env.caller
               last_press_timestamp := env.block_timestamp })

/-- The Ledger effects of a successful `payout`:
`self.env().transfer(self.last_press_caller, balance)` followed by
`self.env().terminate_contract(self.env().caller())`. -/
structure PayoutEffect where
  transferTo : Nat
  amount : Nat
  terminateTo : Nat
deriving DecidableEq, Repr

/-- Outcome of one `payout` call.  `aborted` is the panic of
`now.checked_sub(last_call).unwrap()` on underflow (the whole call traps);
`err` returns the error with `&mut self` untouched; `done` records the
transfer and the termination sweep, after which the instance is gone. -/
inductive PayoutResult where
  | aborted
  | err (e : Error) (s : TheButton)
  | done (eff : PayoutEffect)
deriving DecidableEq, Repr

/-- Message `payout`, following the source line by line: checked
subtraction of the timestamps with `.unwrap()`, the countdown guard, then
the transfer of the full balance to `last_press_caller` and the
unconditional `terminate_contract(caller)`. -/
def payout (env : Env) (s : TheButton) : PayoutResult :=
  match checkedSub env.block_timestamp s.last_press_timestamp with
  | none => PayoutResult.aborted
  | some time_passed =>
    if time_passed < s.countdown_duration then
      PayoutResult.err Error.CountdownNotPassed s
    else
      PayoutResult.done
        { transferTo := s.last_press_caller
          amount := env.balance
          terminateTo := env.caller }

/-- Message `get_countdown`: checked subtraction of the timestamps with
`.unwrap()` (`none` = panic), the `time_passed >= countdown_duration`
guard returning 0, else `countdown_duration.checked_sub(time_passed).unwrap()`. -/
def get_countdown (env : Env) (s : TheButton) : Option Nat :=
  match checkedSub env.block_timestamp s.last_press_timestamp with
  | none => none
  | some time_passed =>
    if s.countdown_duration ≤ time_passed then some 0
    else checkedSub s.countdown_duration time_passed

/-- Message `get_last_press_caller`. -/
def get_last_press_caller (s : TheButton) : Nat :=
  s.last_press_caller

/-- Message `get_last_press_timestamp`. -/
def get_last_press_timestamp (s : TheButton) : Nat :=
  s.last_press_timestamp

/-- Message `get_balance`: delegates to the Ledger. -/
def get_balance (env : Env) : Nat :=
  env.balance

/-- Lifecycle of one contract instance: alive with its storage, or
destroyed.  Modelled from the spec: `terminate_contract` irreversibly
destroys the instance, and the host rejects every call against a
terminated contract, so `terminated` has no outgoing transitions. -/
inductive Lifecycle where
  | live (s : TheButton)
  | terminated
deriving DecidableEq, Repr

/-- One host-serialized message call against a live instance.  `press`
transitions according to its result; `payout` stays put on error and
destroys the instance on success.  No constructor acts on `terminated`. -/
inductive Step : Lifecycle → Env → Lifecycle → Prop where
  | pressOk (env : Env) (s s' : TheButton) :
      press env s = (Except.ok (), s') →
      Step (Lifecycle.live s) env (Lifecycle.live s')
  | pressErr (env : Env) (s s' : TheButton) (e : Error) :
      press env s = (Except.error e, s') →
      Step (Lifecycle.live s) env (Lifecycle.live s')
  | payoutErr (env : Env) (s s' : TheButton) (e : Error) :
      payout env s = PayoutResult.err e s' →
      Step (Lifecycle.live s) env (Lifecycle.live s')
  | payoutDone (env : Env) (s : TheButton) (eff : PayoutEffect) :
      payout env s = PayoutResult.done eff →
      Step (Lifecycle.live s) env Lifecycle.terminated

end the_button

namespace the_button

/-! ## Helper lemmas -/

/-- A failing `press` returns `&mut self` untouched. -/
lemma press_error_state (env : Env) (s s' : TheButton) (e : Error)
    (h : press env s = (Except.error e, s')) : s' = s := by
  unfold press at h
  split at h
  · injection h with h1 h2
    exact h2.symm
  · exact absurd h (by simp)

/-- A failing `payout` returns `&mut self` untouched. -/
lemma payout_error_state (env : Env) (s s' : TheButton) (e : Error)
    (h : payout env s = PayoutResult.err e s') : s' = s := by
  unfold payout at h
  split at h
  · exact absurd h (by simp)
  · split at h
    · injection h with h1 h2
      exact h2.symm
    · exact absurd h (by simp)

/-- When the clock has not regressed, the first checked subtraction in
`payout`/`get_countdown` succeeds with the elapsed time. -/
lemma checkedSub_of_le (a b : Nat) (h : b ≤ a) :
    checkedSub a b = some (a - b) := by
  simp [checkedSub, h]

/-- At the instant of the last press (elapsed time zero), `get_countdown`
returns the full `countdown_duration`, including in the degenerate case
`countdown_duration = 0` where the guard branch returns the same value. -/
lemma get_countdown_at_press_instant (env : Env) (s : TheButton)
    (h : env.block_timestamp = s.last_press_timestamp) :
    get_countdown env s = some s.countdown_duration := by
  have hc : checkedSub env.block_timestamp s.last_press_timestamp = some 0 := by
    simp [checkedSub, h]
  unfold get_countdown
  rw [hc]
  by_cases hcd : s.countdown_duration ≤ 0
  · have : s.countdown_duration = 0 := by omega
    simp [hcd, this]
  · simp [hcd, checkedSub]

end the_button

namespace the_button

/-! ## Claim theorems -/

/-- C1: when `Clock.now() ≥ last_press_time`, `payout` fails with
`CountdownNotPassed` (state unchanged) exactly when the elapsed time is
below `countdown_duration`, and otherwise succeeds, transferring the full
pre-payout balance to `last_press_caller` (the holder), not to the caller. -/
theorem payout_countdown_spec (env : Env) (s : TheButton)
    (h : s.last_press_timestamp ≤ env.block_timestamp) :
    (payout env s = PayoutResult.err Error.CountdownNotPassed s ↔
      env.block_timestamp - s.last_press_timestamp < s.countdown_duration) ∧
    (s.countdown_duration ≤ env.block_timestamp - s.last_press_timestamp →
      payout env s = PayoutResult.done
        { transferTo := s.last_press_caller
          amount := env.balance
          terminateTo := env.caller }) := by
  have hc := checkedSub_of_le env.block_timestamp s.last_press_timestamp h
  constructor
  · unfold payout
    rw [hc]
    by_cases ht : env.block_timestamp - s.last_press_timestamp <
        s.countdown_duration
    · simp [ht]
    · simp [ht]
  · intro hge
    have ht : ¬ env.block_timestamp - s.last_press_timestamp <
        s.countdown_duration := by omega
    unfold payout
    rw [hc]
    simp [ht]

/-- C1 witness: at `now = 2000000`, `last = 0`, `countdown = 1000`,
`balance = 555`, holder 3, caller 7, payout succeeds transferring 555 to 3
and the error case is ruled out. -/
theorem payout_countdown_spec_witness :
    (payout ⟨7, 2000000, 0, 555⟩ ⟨3, 0, 1000, 1⟩ =
        PayoutResult.err Error.CountdownNotPassed ⟨3, 0, 1000, 1⟩ ↔
      2000000 - 0 < 1000) ∧
    (1000 ≤ 2000000 - 0 →
      payout ⟨7, 2000000, 0, 555⟩ ⟨3, 0, 1000, 1⟩ =
        PayoutResult.done ⟨3, 555, 7⟩) :=
  payout_countdown_spec ⟨7, 2000000, 0, 555⟩ ⟨3, 0, 1000, 1⟩ (by decide)

/-- C2: `press` with attached value `≥ min_stake` succeeds and sets the
holder and timestamp from the environment; with value `< min_stake` it
fails with `InsertCoinToContinue` leaving the state unchanged. -/
theorem press_spec (env : Env) (s : TheButton) :
    (s.min_raise_balance ≤ env.transferred_value →
      press env s = (Except.ok (),
        { s with last_press_caller := env.caller
                 last_press_timestamp := env.block_timestamp })) ∧
    (env.transferred_value < s.min_raise_balance →
      press env s = (Except.error Error.InsertCoinToContinue, s)) := by
  constructor
  · intro hge
    have : ¬ env.transferred_value < s.min_raise_balance := by omega
    simp [press, this]
  · intro hlt
    simp [press, hlt]

/-- C2 witness: with `min_stake = 100`, a press with value 100 succeeds
and updates the state, and a press with value 99 fails with
`InsertCoinToContinue` leaving the state unchanged. -/
theorem press_spec_witness :
    press ⟨5, 42, 100, 0⟩ ⟨1, 7, 9, 100⟩ = (Except.ok (), ⟨5, 42, 9, 100⟩) ∧
    press ⟨5, 42, 99, 0⟩ ⟨1, 7, 9, 100⟩ =
      (Except.error Error.InsertCoinToContinue, ⟨1, 7, 9, 100⟩) :=
  ⟨(press_spec ⟨5, 42, 100, 0⟩ ⟨1, 7, 9, 100⟩).1 (by decide),
   (press_spec ⟨5, 42, 99, 0⟩ ⟨1, 7, 9, 100⟩).2 (by decide)⟩

/-- C3 counterexample: at `now = 5 < last_press_timestamp = 10`, `payout`
aborts the whole call (the `unwrap` on the checked subtraction panics);
it does not return any error, and the contract's `Error` enum has no
`ClockSkew` variant at all. -/
theorem payout_clock_skew_counterexample :
    payout ⟨1, 5, 0, 0⟩ ⟨2, 10, 1000, 1⟩ = PayoutResult.aborted ∧
    (5 : Nat) < 10 := by decide

/-- C3 amended: for every state with `Clock.now() < last_press_time`,
`payout` panics on the `unwrap` of the checked subtraction, aborting the
whole call; no `ClockSkew` error is returned. -/
theorem payout_clock_skew_aborts (env : Env) (s : TheButton)
    (h : env.block_timestamp < s.last_press_timestamp) :
    payout env s = PayoutResult.aborted := by
  have hc : checkedSub env.block_timestamp s.last_press_timestamp = none := by
    unfold checkedSub
    have : ¬ s.last_press_timestamp ≤ env.block_timestamp := by omega
    simp [this]
  unfold payout
  rw [hc]

/-- C3 amended witness: `now = 4 < last = 11` makes `payout` abort. -/
theorem payout_clock_skew_aborts_witness :
    payout ⟨1, 4, 0, 0⟩ ⟨2, 11, 1000, 1⟩ = PayoutResult.aborted :=
  payout_clock_skew_aborts ⟨1, 4, 0, 0⟩ ⟨2, 11, 1000, 1⟩ (by decide)

end the_button

namespace the_button

/-- C4: every successful `payout` terminates the instance, routing the
residual balance sweep to the invoking caller, and the terminated
lifecycle state has no outgoing transitions. -/
theorem payout_terminates_forever :
    (∀ (env : Env) (s : TheButton) (eff : PayoutEffect),
      payout env s = PayoutResult.done eff →
        Step (Lifecycle.live s) env Lifecycle.terminated ∧
        eff.terminateTo = env.caller) ∧
    (∀ (env : Env) (l : Lifecycle),
      ¬ Step Lifecycle.terminated env l) := by
  constructor
  · intro env s eff h
    refine ⟨Step.payoutDone env s eff h, ?_⟩
    unfold payout at h
    split at h
    · exact absurd h (by simp)
    · split at h
      · exact absurd h (by simp)
      · injection h with h2
        rw [← h2]
  · intro env l h
    cases h

/-- C4 witness: at `now = 5000`, `last = 0`, `countdown = 1000`, payout
succeeds, the instance steps to `terminated` sweeping the residual to
caller 7, and no step leaves the terminated state. -/
theorem payout_terminates_forever_witness :
    (Step (Lifecycle.live ⟨3, 0, 1000, 1⟩) ⟨7, 5000, 0, 99⟩
        Lifecycle.terminated ∧
      (PayoutEffect.mk 3 99 7).terminateTo = 7) ∧
    ¬ Step Lifecycle.terminated ⟨7, 5000, 0, 99⟩
        (Lifecycle.live ⟨3, 0, 1000, 1⟩) :=
  ⟨payout_terminates_forever.1 ⟨7, 5000, 0, 99⟩ ⟨3, 0, 1000, 1⟩
      ⟨3, 99, 7⟩ (by decide),
   payout_terminates_forever.2 ⟨7, 5000, 0, 99⟩
      (Lifecycle.live ⟨3, 0, 1000, 1⟩)⟩

/-- C5: when `Clock.now() ≥ last_press_time`, `get_countdown` returns 0
if the elapsed time reached `countdown_duration`, and the remaining
`countdown_duration − elapsed` otherwise. -/
theorem get_countdown_spec (env : Env) (s : TheButton)
    (h : s.last_press_timestamp ≤ env.block_timestamp) :
    (s.countdown_duration ≤ env.block_timestamp - s.last_press_timestamp →
      get_countdown env s = some 0) ∧
    (env.block_timestamp - s.last_press_timestamp < s.countdown_duration →
      get_countdown env s = some (s.countdown_duration -
        (env.block_timestamp - s.last_press_timestamp))) := by
  have hc := checkedSub_of_le env.block_timestamp s.last_press_timestamp h
  constructor
  · intro hge
    unfold get_countdown
    rw [hc]
    simp [hge]
  · intro hlt
    have hn : ¬ s.countdown_duration ≤
        env.block_timestamp - s.last_press_timestamp := by omega
    unfold get_countdown
    rw [hc]
    simp [hn, checkedSub, Nat.le_of_lt hlt]

/-- C5 witness: with `countdown = 50`, at elapsed 60 the countdown reads
0, and at elapsed 30 it reads 20. -/
theorem get_countdown_spec_witness :
    get_countdown ⟨0, 100, 0, 0⟩ ⟨0, 40, 50, 0⟩ = some 0 ∧
    get_countdown ⟨0, 100, 0, 0⟩ ⟨0, 70, 50, 0⟩ = some (50 - (100 - 70)) :=
  ⟨(get_countdown_spec ⟨0, 100, 0, 0⟩ ⟨0, 40, 50, 0⟩ (by decide)).1 (by decide),
   (get_countdown_spec ⟨0, 100, 0, 0⟩ ⟨0, 70, 50, 0⟩ (by decide)).2 (by decide)⟩

/-- C6: at any instant equal to `last_press_time` — immediately after
construction, and immediately after any successful `press`, regardless of
prior elapsed time — `get_countdown` returns exactly `countdown_duration`. -/
theorem countdown_full_at_press_instant :
    (∀ (envC envQ : Env) (cd ms : Nat),
      envQ.block_timestamp = envC.block_timestamp →
      get_countdown envQ (new envC cd ms) = some cd) ∧
    (∀ (envP envQ : Env) (s s' : TheButton),
      press envP s = (Except.ok (), s') →
      envQ.block_timestamp = envP.block_timestamp →
      get_countdown envQ s' = some s.countdown_duration) := by
  constructor
  · intro envC envQ cd ms h
    exact get_countdown_at_press_instant envQ (new envC cd ms) h
  · intro envP envQ s s' hok hts
    unfold press at hok
    split at hok
    · exact absurd hok (by simp)
    · injection hok with h1 h2
      rw [← h2]
      exact get_countdown_at_press_instant envQ _ hts

/-- C6 witness: a freshly constructed contract at its construction instant
reads the full countdown 77, and after a successful press at `t = 90210`
(long after the previous press at `t = 7`) the countdown reads the full 77
again at that instant. -/
theorem countdown_full_at_press_instant_witness :
    get_countdown ⟨9, 12345, 0, 0⟩ (new ⟨4, 12345, 0, 0⟩ 77 5) = some 77 ∧
    get_countdown ⟨9, 90210, 0, 0⟩ ⟨5, 90210, 77, 5⟩ = some 77 :=
  ⟨countdown_full_at_press_instant.1 ⟨4, 12345, 0, 0⟩ ⟨9, 12345, 0, 0⟩ 77 5
      (by decide),
   countdown_full_at_press_instant.2 ⟨5, 90210, 6, 0⟩ ⟨9, 90210, 0, 0⟩
      ⟨1, 7, 77, 5⟩ ⟨5, 90210, 77, 5⟩ (by rfl) (by decide)⟩

end the_button

namespace the_button

/-- C7: whenever `press` or `payout` returns an error, the state is
unchanged — every error path checks its precondition before any write. -/
theorem errors_atomic :
    (∀ (env : Env) (s s' : TheButton) (e : Error),
      press env s = (Except.error e, s') → s' = s) ∧
    (∀ (env : Env) (s s' : TheButton) (e : Error),
      payout env s = PayoutResult.err e s' → s' = s) := by
  exact ⟨press_error_state, payout_error_state⟩

/-- C7 witness: a concrete failing press (value 0 below `min_stake` 100)
and a concrete failing payout (elapsed 3 below countdown 1000) both leave
the concrete state equal to itself. -/
theorem errors_atomic_witness :
    (⟨1, 7, 9, 100⟩ : TheButton) = ⟨1, 7, 9, 100⟩ ∧
    (⟨2, 4, 1000, 5⟩ : TheButton) = ⟨2, 4, 1000, 5⟩ :=
  ⟨errors_atomic.1 ⟨8, 50, 0, 0⟩ ⟨1, 7, 9, 100⟩ ⟨1, 7, 9, 100⟩
      Error.InsertCoinToContinue (by rfl),
   errors_atomic.2 ⟨8, 7, 0, 0⟩ ⟨2, 4, 1000, 5⟩ ⟨2, 4, 1000, 5⟩
      Error.CountdownNotPassed (by rfl)⟩

/-- C8: `countdown_duration` and `min_raise_balance` are immutable: any
`press` (success or failure) preserves both, and any `payout` that
returns a state (the error path) preserves both; the queries take the
state immutably and return no state at all. -/
theorem params_immutable :
    (∀ (env : Env) (s : TheButton),
      ((press env s).2).countdown_duration = s.countdown_duration ∧
      ((press env s).2).min_raise_balance = s.min_raise_balance) ∧
    (∀ (env : Env) (s s' : TheButton) (e : Error),
      payout env s = PayoutResult.err e s' →
      s'.countdown_duration = s.countdown_duration ∧
      s'.min_raise_balance = s.min_raise_balance) := by
  constructor
  · intro env s
    unfold press
    split <;> exact ⟨rfl, rfl⟩
  · intro env s s' e h
    rw [payout_error_state env s s' e h]
    exact ⟨rfl, rfl⟩

/-- C8 witness: a successful concrete press preserves countdown 9 and
min stake 100, and a concrete failing payout preserves countdown 1000 and
min stake 5. -/
theorem params_immutable_witness :
    (((press ⟨8, 50, 200, 0⟩ ⟨1, 7, 9, 100⟩).2).countdown_duration = 9 ∧
      ((press ⟨8, 50, 200, 0⟩ ⟨1, 7, 9, 100⟩).2).min_raise_balance = 100) ∧
    ((⟨2, 4, 1000, 5⟩ : TheButton).countdown_duration = 1000 ∧
      (⟨2, 4, 1000, 5⟩ : TheButton).min_raise_balance = 5) :=
  ⟨params_immutable.1 ⟨8, 50, 200, 0⟩ ⟨1, 7, 9, 100⟩,
   params_immutable.2 ⟨8, 7, 0, 0⟩ ⟨2, 4, 1000, 5⟩ ⟨2, 4, 1000, 5⟩
      Error.CountdownNotPassed (by rfl)⟩

/-- C9 counterexample: at `now = 3 < last_press_timestamp = 9`,
`get_countdown` aborts (the `unwrap` on the checked subtraction panics),
returning no value at all — in particular not `countdown_duration = 100`. -/
theorem countdown_clock_skew_counterexample :
    get_countdown ⟨0, 3, 0, 0⟩ ⟨0, 9, 100, 0⟩ = none ∧ (3 : Nat) < 9 := by
  decide

/-- C9 amended: for every state with `Clock.now() < last_press_time`,
`get_countdown` panics on the `unwrap` of the checked subtraction,
aborting the call instead of returning a clamped value. -/
theorem countdown_clock_skew_aborts (env : Env) (s : TheButton)
    (h : env.block_timestamp < s.last_press_timestamp) :
    get_countdown env s = none := by
  have hc : checkedSub env.block_timestamp s.last_press_timestamp = none := by
    unfold checkedSub
    have : ¬ s.last_press_timestamp ≤ env.block_timestamp := by omega
    simp [this]
  unfold get_countdown
  rw [hc]

/-- C9 amended witness: `now = 2 < last = 8` makes `get_countdown` abort. -/
theorem countdown_clock_skew_aborts_witness :
    get_countdown ⟨0, 2, 0, 0⟩ ⟨0, 8, 100, 0⟩ = none :=
  countdown_clock_skew_aborts ⟨0, 2, 0, 0⟩ ⟨0, 8, 100, 0⟩ (by decide)

/-- C10: when the `time_passed ≥ countdown_duration` guard in
`get_countdown` is not taken, `countdown_duration.checked_sub(time_passed)`
always yields `Some`, so the final `unwrap` never panics; consequently
`get_countdown` returns a value whenever the first subtraction succeeds. -/
theorem get_countdown_final_unwrap_safe :
    (∀ (s : TheButton) (time_passed : Nat),
      ¬ s.countdown_duration ≤ time_passed →
      checkedSub s.countdown_duration time_passed =
        some (s.countdown_duration - time_passed)) ∧
    (∀ (env : Env) (s : TheButton),
      s.last_press_timestamp ≤ env.block_timestamp →
      get_countdown env s ≠ none) := by
  constructor
  · intro s t ht
    have : t ≤ s.countdown_duration := by omega
    simp [checkedSub, this]
  · intro env s h
    have hc := checkedSub_of_le env.block_timestamp s.last_press_timestamp h
    unfold get_countdown
    rw [hc]
    by_cases hcd : s.countdown_duration ≤
        env.block_timestamp - s.last_press_timestamp
    · simp [hcd]
    · have : env.block_timestamp - s.last_press_timestamp ≤
          s.countdown_duration := by omega
      simp [hcd, checkedSub, this]

/-- C10 witness: with countdown 100 and `time_passed = 30` the checked
subtraction yields `some 70`, and at `now = 40 ≥ last = 10` the whole
query returns a value. -/
theorem get_countdown_final_unwrap_safe_witness :
    checkedSub (100 : Nat) 30 = some (100 - 30) ∧
    get_countdown ⟨0, 40, 0, 0⟩ ⟨0, 10, 100, 0⟩ ≠ none :=
  ⟨by
    have h := get_countdown_final_unwrap_safe.1 ⟨0, 0, 100, 0⟩ 30 (by decide)
    exact h,
   get_countdown_final_unwrap_safe.2 ⟨0, 40, 0, 0⟩ ⟨0, 10, 100, 0⟩ (by decide)⟩

end the_button
